import Mathlib

/-!
Shallow embedding of the two Express handler variants of the
`habitaciones` REST API:
* the strict variant (`src/unnamed/part_000`): id validation, field
  validation, uniqueness / existence pre-checks;
* the lenient variant (`src/habitaciones.js`): forwards to the store
  with no validation.

JavaScript values that flow through the request bodies are modelled by
`JSValue` (numeric literals are modelled as integers; no float appears in
the claims). The remote data store (the Supabase client) is an opaque
external collaborator: each handler receives a `StoreOracle` giving the
result of every store call the handler might make, and returns the HTTP
response together with the trace of store calls actually issued.
-/

/-- A JavaScript value as it appears in a parsed JSON request body:
`undefined` (a destructured missing field), `null`, a boolean, an
integer number, or a string. -/
inductive JSValue where
  | undef : JSValue
  | null : JSValue
  | bool : Bool → JSValue
  | num : Int → JSValue
  | str : String → JSValue
deriving DecidableEq, Repr

/-- JavaScript truthiness: `undefined`, `null`, `false`, `0` and the
empty string are falsy, everything else is truthy. -/
def truthy : JSValue → Bool
  | .undef => false
  | .null => false
  | .bool b => b
  | .num n => n != 0
  | .str s => s != ""

/-- JavaScript `typeof`. -/
def jsTypeof : JSValue → String
  | .undef => "undefined"
  | .null => "object"
  | .bool _ => "boolean"
  | .num _ => "number"
  | .str _ => "string"

/-- Whitespace skipped by `parseInt` / `Number`. -/
def jsWhitespace (c : Char) : Bool :=
  c = ' ' || c = '\t' || c = '\n' || c = '\r'

/-- Value of a non-empty list of decimal digits. -/
def digitsVal (ds : List Char) : Nat :=
  ds.foldl (fun acc c => acc * 10 + (c.toNat - 48)) 0

/-- JavaScript `parseInt(s, 10)`: skip leading whitespace, an optional
sign, then the longest leading run of decimal digits; `none` models the
`NaN` result when no digit is found. -/
def jsParseInt (s : String) : Option Int :=
  let cs := s.toList.dropWhile jsWhitespace
  let signAndRest : Bool × List Char :=
    match cs with
    | '-' :: r => (true, r)
    | '+' :: r => (false, r)
    | _ => (false, cs)
  let ds := signAndRest.2.takeWhile Char.isDigit
  if ds.isEmpty then none
  else some (if signAndRest.1 then -(digitsVal ds : Int) else (digitsVal ds : Int))

/-- JavaScript `Number(s)` restricted to integer literals: a trimmed
empty string is `0`; an optional sign followed by digits only is that
integer; anything else is `NaN` (`none`). -/
def jsStringToNumber (s : String) : Option Int :=
  let cs := ((s.toList.dropWhile jsWhitespace).reverse.dropWhile jsWhitespace).reverse
  match cs with
  | [] => some 0
  | _ =>
    let signAndRest : Bool × List Char :=
      match cs with
      | '-' :: r => (true, r)
      | '+' :: r => (false, r)
      | _ => (false, cs)
    if signAndRest.2 ≠ [] ∧ signAndRest.2.all Char.isDigit then
      some (if signAndRest.1 then -(digitsVal signAndRest.2 : Int)
            else (digitsVal signAndRest.2 : Int))
    else none

/-- JavaScript numeric coercion `Number(v)`; `none` models `NaN`. -/
def jsToNumber : JSValue → Option Int
  | .undef => none
  | .null => some 0
  | .bool b => some (if b then 1 else 0)
  | .num n => some n
  | .str s => jsStringToNumber s

/-- JavaScript global `isNaN(v)` (coerces, then tests for `NaN`); in
particular `isNaN(undefined)` is `true`. -/
def jsIsNaN (v : JSValue) : Bool :=
  (jsToNumber v).isNone

/-- JavaScript comparison `v <= 0` (numeric coercion; a `NaN` comparison
is `false`). -/
def jsLeZero (v : JSValue) : Bool :=
  match jsToNumber v with
  | some n => n ≤ 0
  | none => false

/-- A stored row of the `habitaciones` collection. `habitacion_id` is
the server-assigned key; the remaining columns hold whatever values were
sent by clients. -/
structure Room where
  habitacion_id : Int
  num_habi : JSValue
  tipo : JSValue
  capacidad : JSValue
  precio : JSValue
  estado : JSValue
deriving DecidableEq, Repr

/-- The request body after `const { num_habi, tipo, capacidad, precio,
estado } = req.body`: a missing field destructures to `undefined`. -/
structure ReqBody where
  num_habi : JSValue := .undef
  tipo : JSValue := .undef
  capacidad : JSValue := .undef
  precio : JSValue := .undef
  estado : JSValue := .undef
deriving DecidableEq, Repr

/-- The JSON body of an HTTP response. -/
inductive ResBody where
  | errMsg : String → ResBody
  | room : Room → ResBody
  | rooms : List Room → ResBody
  | jnull : ResBody
  | empty : ResBody
deriving DecidableEq, Repr

/-- An HTTP response: status code and body. -/
structure Response where
  status : Nat
  body : ResBody
deriving DecidableEq, Repr

/-- The kinds of calls a handler makes against the remote store. -/
inductive CallKind where
  | selectAll : CallKind
  | selectOneById : CallKind
  | selectOneByNum : CallKind
  | insertRow : CallKind
  | updateRow : CallKind
  | deleteRow : CallKind
deriving DecidableEq, Repr

/-- A store call that changes the stored collection. -/
def mutates : CallKind → Bool
  | .insertRow => true
  | .updateRow => true
  | .deleteRow => true
  | _ => false

/-- The remote store's answer to each call a handler might make during
one request. `.single()` queries yield either a row or an
error-with-message (no row, several rows, or an upstream failure all
surface as an error); `selectAllRes` yields the whole collection (or
`none` for a null payload); `deleteRes` is `some m` exactly when the
delete reports an error. -/
structure StoreOracle where
  selectAllRes : Except String (Option (List Room)) := .ok (some [])
  singleByIdRes : Except String Room := .error "JSON object requested, multiple (or no) rows returned"
  singleByNumRes : Except String Room := .error "JSON object requested, multiple (or no) rows returned"
  insertRes : Except String Room := .error "insert failed"
  updateRes : Except String Room := .error "update failed"
  deleteRes : Option String := none

/-- Honest semantics of a `.select('*').eq(col, v).single()` call against
a concrete collection: `ok` exactly when the filter matches one row. -/
def singleQuery (rows : List Room) (p : Room → Bool) : Except String Room :=
  match rows.filter p with
  | [r] => .ok r
  | _ => .error "JSON object requested, multiple (or no) rows returned"

/-- Strict variant, `GET /habitaciones` (part_000 lines 48-58): 500 on
store error, 404 when the collection is null or empty, 200 with the
collection otherwise. -/
def getHabitacionesStrict (st : StoreOracle) : Response × List CallKind :=
  match st.selectAllRes with
  | .error m => (⟨500, .errMsg m⟩, [.selectAll])
  | .ok none => (⟨404, .errMsg "No hay habitaciones registradas"⟩, [.selectAll])
  | .ok (some data) =>
    if data.length = 0 then
      (⟨404, .errMsg "No hay habitaciones registradas"⟩, [.selectAll])
    else
      (⟨200, .rooms data⟩, [.selectAll])

/-- Lenient variant, `GET /habitaciones` (habitaciones.js lines 44-48):
500 on store error, otherwise 200 with whatever the store returned. -/
def getHabitacionesLenient (st : StoreOracle) : Response × List CallKind :=
  match st.selectAllRes with
  | .error m => (⟨500, .errMsg m⟩, [.selectAll])
  | .ok none => (⟨200, .jnull⟩, [.selectAll])
  | .ok (some data) => (⟨200, .rooms data⟩, [.selectAll])

/-- Strict variant, `GET /habitaciones/:id` (part_000 lines 81-95):
`parseInt` the id, 400 when `NaN` or non-positive, then a single-row
query; error or null data gives 404, otherwise 200 with the row. -/
def getHabitacionByIdStrict (idParam : String) (st : StoreOracle) :
    Response × List CallKind :=
  match jsParseInt idParam with
  | none => (⟨400, .errMsg "ID inválido. Debe ser un número entero positivo."⟩, [])
  | some id =>
    if id ≤ 0 then
      (⟨400, .errMsg "ID inválido. Debe ser un número entero positivo."⟩, [])
    else
      match st.singleByIdRes with
      | .error _ => (⟨404, .errMsg "Habitación no encontrada"⟩, [.selectOneById])
      | .ok data => (⟨200, .room data⟩, [.selectOneById])

/-- Lenient variant, `GET /habitaciones/:id` (habitaciones.js lines
69-74): no id validation; a query error gives 404, otherwise 200. -/
def getHabitacionByIdLenient (st : StoreOracle) : Response × List CallKind :=
  match st.singleByIdRes with
  | .error _ => (⟨404, .errMsg "Habitación no encontrada"⟩, [.selectOneById])
  | .ok data => (⟨200, .room data⟩, [.selectOneById])

/-- Strict variant, `POST /habitaciones` (part_000 lines 128-154): the
presence check `!num_habi || !tipo || !capacidad || !precio || estado
=== undefined` gives 400; then a uniqueness pre-check on `num_habi`
whose error is discarded (only `data` is destructured) gives 409 when a
row is found; then insert: 500 on error, 201 with the stored row. -/
def postHabitacionStrict (body : ReqBody) (st : StoreOracle) :
    Response × List CallKind :=
  if truthy body.num_habi = false ∨ truthy body.tipo = false ∨
     truthy body.capacidad = false ∨ truthy body.precio = false ∨
     body.estado = JSValue.undef then
    (⟨400, .errMsg "Todos los campos son obligatorios."⟩, [])
  else
    let existeHabitacion : Option Room :=
      match st.singleByNumRes with
      | .ok r => some r
      | .error _ => none
    match existeHabitacion with
    | some _ => (⟨409, .errMsg "El número de habitación ya existe."⟩, [.selectOneByNum])
    | none =>
      match st.insertRes with
      | .error m => (⟨500, .errMsg m⟩, [.selectOneByNum, .insertRow])
      | .ok data => (⟨201, .room data⟩, [.selectOneByNum, .insertRow])

/-- Lenient variant, `POST /habitaciones` (habitaciones.js lines
103-113): inserts immediately; 500 on error, 201 with the stored row. -/
def postHabitacionLenient (st : StoreOracle) : Response × List CallKind :=
  match st.insertRes with
  | .error m => (⟨500, .errMsg m⟩, [.insertRow])
  | .ok data => (⟨201, .room data⟩, [.insertRow])

/-- Strict variant, `PATCH /habitaciones/:id` (part_000 lines 193-241):
id validation; `isNaN(num_habi) || num_habi <= 0` unconditionally (note:
not guarded by presence, unlike every other field); presence-guarded
type checks for `tipo`, `capacidad`, `precio`, `estado`; an existence
pre-check whose error is discarded gives 404 when no row is found; then
update: 500 on error, 200 with the updated row. -/
def patchHabitacionStrict (idParam : String) (body : ReqBody) (st : StoreOracle) :
    Response × List CallKind :=
  match jsParseInt idParam with
  | none => (⟨400, .errMsg "ID inválido. Debe ser un número entero positivo."⟩, [])
  | some id =>
    if id ≤ 0 then
      (⟨400, .errMsg "ID inválido. Debe ser un número entero positivo."⟩, [])
    else if jsIsNaN body.num_habi = true ∨ jsLeZero body.num_habi = true then
      (⟨400, .errMsg "Numero de habitacion invalida! Debe ser un número entero positivo."⟩, [])
    else if truthy body.tipo = true ∧ jsTypeof body.tipo ≠ "string" then
      (⟨400, .errMsg "El tipo debe ser una cadena de texto."⟩, [])
    else if truthy body.capacidad = true ∧
            (jsIsNaN body.capacidad = true ∨ jsLeZero body.capacidad = true) then
      (⟨400, .errMsg "Capacidad inválida. Debe ser un número entero positivo."⟩, [])
    else if truthy body.precio = true ∧
            (jsIsNaN body.precio = true ∨ jsLeZero body.precio = true) then
      (⟨400, .errMsg "Precio inválido. Debe ser un número entero positivo."⟩, [])
    else if body.estado ≠ JSValue.undef ∧ jsTypeof body.estado ≠ "boolean" then
      (⟨400, .errMsg "El estado debe ser un valor booleano (true o false)."⟩, [])
    else
      let habitacionExistente : Option Room :=
        match st.singleByIdRes with
        | .ok r => some r
        | .error _ => none
      match habitacionExistente with
      | none => (⟨404, .errMsg "Habitación no encontrada"⟩, [.selectOneById])
      | some _ =>
        match st.updateRes with
        | .error m => (⟨500, .errMsg m⟩, [.selectOneById, .updateRow])
        | .ok data => (⟨200, .room data⟩, [.selectOneById, .updateRow])

/-- Lenient variant, `PUT /habitaciones/:id` (habitaciones.js lines
149-162): updates immediately; 500 on error, 200 with the row. -/
def putHabitacionLenient (st : StoreOracle) : Response × List CallKind :=
  match st.updateRes with
  | .error m => (⟨500, .errMsg m⟩, [.updateRow])
  | .ok data => (⟨200, .room data⟩, [.updateRow])

/-- Strict variant, `DELETE /habitaciones/:id` (part_000 lines 263-281):
id validation (400); an existence pre-check whose error is discarded
gives 404 when no row is found; then delete: 500 on error, 204 with an
empty body. -/
def deleteHabitacionStrict (idParam : String) (st : StoreOracle) :
    Response × List CallKind :=
  match jsParseInt idParam with
  | none => (⟨400, .errMsg "ID inválido. Debe ser un número entero positivo."⟩, [])
  | some id =>
    if id ≤ 0 then
      (⟨400, .errMsg "ID inválido. Debe ser un número entero positivo."⟩, [])
    else
      let habitacionExistente : Option Room :=
        match st.singleByIdRes with
        | .ok r => some r
        | .error _ => none
      match habitacionExistente with
      | none => (⟨404, .errMsg "Habitación no encontrada"⟩, [.selectOneById])
      | some _ =>
        match st.deleteRes with
        | some m => (⟨500, .errMsg m⟩, [.selectOneById, .deleteRow])
        | none => (⟨204, .empty⟩, [.selectOneById, .deleteRow])

/-- Lenient variant, `DELETE /habitaciones/:id` (habitaciones.js lines
181-187): no validation and no existence check; 500 on error, 204 with
an empty body. -/
def deleteHabitacionLenient (st : StoreOracle) : Response × List CallKind :=
  match st.deleteRes with
  | some m => (⟨500, .errMsg m⟩, [.deleteRow])
  | none => (⟨204, .empty⟩, [.deleteRow])

/-! ### Helper lemmas -/

/-- When `num_habi` is unique across the collection and some row carries
the value `v`, the uniqueness pre-check's filter finds exactly that
row. -/
lemma filter_num_eq_singleton (rows : List Room) (r : Room) (v : JSValue)
    (huniq : rows.Pairwise (fun a b => a.num_habi ≠ b.num_habi))
    (hmem : r ∈ rows) (hv : r.num_habi = v) :
    rows.filter (fun x => decide (x.num_habi = v)) = [r] := by
  induction rows with
  | nil => cases hmem
  | cons a l ih =>
    rcases List.pairwise_cons.mp huniq with ⟨ha, hl⟩
    rcases List.mem_cons.mp hmem with h | h
    · subst h
      have hnil : l.filter (fun x => decide (x.num_habi = v)) = [] := by
        refine List.filter_eq_nil_iff.mpr fun b hb => ?_
        simp only [decide_eq_true_eq]
        intro hbv
        exact ha b hb (hv.trans hbv.symm)
      simp [List.filter_cons, hv, hnil]
    · have hav : a.num_habi ≠ v := fun hav => ha r h (hav.trans hv.symm)
      simpa [List.filter_cons, hav] using ih hl h

/-! ### Claims -/

/-- Claim C1, counterexample: a POST body that contains all five fields,
with `estado = false` and `num_habi = 0`, is rejected by the
missing-field 400 check (the check tests general falsiness of
`num_habi`), so the claim as stated — every body containing the five
fields with `estado = false` passes the presence check — is false. -/
theorem C1_counterexample :
    (postHabitacionStrict
      { num_habi := .num 0, tipo := .str "doble", capacidad := .num 2,
        precio := .num 500, estado := .bool false }
      ({} : StoreOracle)).fst =
      ⟨400, .errMsg "Todos los campos son obligatorios."⟩ ∧
    (postHabitacionStrict
      { num_habi := .num 0, tipo := .str "doble", capacidad := .num 2,
        precio := .num 500, estado := .bool false }
      ({} : StoreOracle)).snd = [] := by
  constructor <;> rfl

/-- Claim C1 (amended): a POST body whose `num_habi`, `tipo`,
`capacidad` and `precio` are truthy and whose `estado` is `false` is not
rejected by the missing-field 400 check: the handler proceeds to the
uniqueness pre-check, and when that pre-check finds no row and the
insert succeeds the response is 201 with the stored row. -/
theorem C1_amended (body : ReqBody) (st : StoreOracle)
    (h1 : truthy body.num_habi = true) (h2 : truthy body.tipo = true)
    (h3 : truthy body.capacidad = true) (h4 : truthy body.precio = true)
    (h5 : body.estado = JSValue.bool false) :
    (postHabitacionStrict body st).fst.status ≠ 400 ∧
    CallKind.selectOneByNum ∈ (postHabitacionStrict body st).snd ∧
    (∀ e, st.singleByNumRes = Except.error e →
      ∀ d, st.insertRes = Except.ok d →
        postHabitacionStrict body st =
          (⟨201, .room d⟩, [.selectOneByNum, .insertRow])) := by
  obtain ⟨sa, sid, snum, ins, upd, del⟩ := st
  cases snum <;> cases ins <;>
    simp_all [postHabitacionStrict]

/-- Claim C1 witness: concrete instance of the amended claim. -/
theorem C1_witness :
    truthy (JSValue.num 101) = true ∧ truthy (JSValue.str "doble") = true ∧
    truthy (JSValue.num 2) = true ∧ truthy (JSValue.num 500) = true ∧
    (postHabitacionStrict
      { num_habi := .num 101, tipo := .str "doble", capacidad := .num 2,
        precio := .num 500, estado := .bool false }
      ({} : StoreOracle)).fst.status ≠ 400 :=
  ⟨by decide, by decide, by decide, by decide,
    (C1_amended
      { num_habi := .num 101, tipo := .str "doble", capacidad := .num 2,
        precio := .num 500, estado := .bool false }
      ({} : StoreOracle) (by decide) (by decide) (by decide) (by decide) rfl).1⟩

/-- Claim C2: the code contradicts the claim. `isNaN(num_habi)` is
checked unconditionally in the strict PATCH handler, and
`isNaN(undefined)` is `true`, so a PATCH with a valid positive id whose
body omits `num_habi` is rejected with 400 on account of `num_habi`,
before any store call. -/
theorem C2_code_behavior :
    patchHabitacionStrict "1" ({} : ReqBody) ({} : StoreOracle) =
      (⟨400, .errMsg "Numero de habitacion invalida! Debe ser un número entero positivo."⟩,
        []) := by
  rfl

/-- Claim C9: the strict create presence check tests general falsiness
of `num_habi`, `tipo`, `capacidad` and `precio` — a body carrying `0` in
a numeric field or the empty string in `tipo` is rejected with the
missing-field 400 even though the field is present — while `estado` is
compared against `undefined` only, so a falsy non-`undefined` `estado`
does not trigger the 400. -/
theorem C9_falsy_presence_check :
    (∀ body : ReqBody, ∀ st : StoreOracle, body.num_habi = JSValue.num 0 →
      (postHabitacionStrict body st).fst =
        ⟨400, .errMsg "Todos los campos son obligatorios."⟩) ∧
    (∀ body : ReqBody, ∀ st : StoreOracle, body.tipo = JSValue.str "" →
      (postHabitacionStrict body st).fst =
        ⟨400, .errMsg "Todos los campos son obligatorios."⟩) ∧
    (∀ body : ReqBody, ∀ st : StoreOracle, body.capacidad = JSValue.num 0 →
      (postHabitacionStrict body st).fst =
        ⟨400, .errMsg "Todos los campos son obligatorios."⟩) ∧
    (∀ body : ReqBody, ∀ st : StoreOracle, body.precio = JSValue.num 0 →
      (postHabitacionStrict body st).fst =
        ⟨400, .errMsg "Todos los campos son obligatorios."⟩) ∧
    (∀ body : ReqBody, ∀ st : StoreOracle,
      truthy body.num_habi = true → truthy body.tipo = true →
      truthy body.capacidad = true → truthy body.precio = true →
      body.estado = JSValue.num 0 →
      (postHabitacionStrict body st).fst.status ≠ 400) := by
  refine ⟨?_, ?_, ?_, ?_, ?_⟩ <;> intro body st <;>
    obtain ⟨sa, sid, snum, ins, upd, del⟩ := st
  · intro h; simp [postHabitacionStrict, h, truthy]
  · intro h; simp [postHabitacionStrict, h, truthy]
  · intro h; simp [postHabitacionStrict, h, truthy]
  · intro h; simp [postHabitacionStrict, h, truthy]
  · intro h1 h2 h3 h4 h5
    cases snum <;> cases ins <;> simp_all [postHabitacionStrict]

/-- A concrete stored row used to instantiate witnesses. -/
def sampleRoom : Room :=
  { habitacion_id := 1, num_habi := .num 101, tipo := .str "doble",
    capacidad := .num 2, precio := .num 500, estado := .bool true }

/-- A concrete well-formed create/update body used to instantiate
witnesses. -/
def sampleBody : ReqBody :=
  { num_habi := .num 101, tipo := .str "doble", capacidad := .num 2,
    precio := .num 500, estado := .bool true }

/-- Claim C3: when the collection keeps `num_habi` unique and a row with
the requested `num_habi` exists (so the honest uniqueness pre-check
finds it), a well-formed POST answers 409, the only store call is the
pre-check select, and no mutating call is made, so the stored collection
is unchanged. -/
theorem C3_conflict_atomic (body : ReqBody) (st : StoreOracle)
    (rows : List Room) (r : Room)
    (h1 : truthy body.num_habi = true) (h2 : truthy body.tipo = true)
    (h3 : truthy body.capacidad = true) (h4 : truthy body.precio = true)
    (h5 : body.estado ≠ JSValue.undef)
    (huniq : rows.Pairwise (fun a b => a.num_habi ≠ b.num_habi))
    (hmem : r ∈ rows) (hv : r.num_habi = body.num_habi)
    (hst : st.singleByNumRes =
      singleQuery rows (fun x => decide (x.num_habi = body.num_habi))) :
    (postHabitacionStrict body st).fst =
      ⟨409, .errMsg "El número de habitación ya existe."⟩ ∧
    (postHabitacionStrict body st).snd = [CallKind.selectOneByNum] ∧
    ((postHabitacionStrict body st).snd.all fun c => !mutates c) = true := by
  have hq : st.singleByNumRes = Except.ok r := by
    rw [hst, singleQuery,
      filter_num_eq_singleton rows r body.num_habi huniq hmem hv]
  obtain ⟨sa, sid, snum, ins, upd, del⟩ := st
  simp only at hq
  subst hq
  simp [postHabitacionStrict, h1, h2, h3, h4, h5, mutates]

/-- Claim C3 witness: concrete instance with a one-row collection
already holding the requested room number. -/
theorem C3_witness :
    truthy sampleBody.num_habi = true ∧
    [sampleRoom].Pairwise (fun a b => a.num_habi ≠ b.num_habi) ∧
    sampleRoom ∈ [sampleRoom] ∧
    sampleRoom.num_habi = sampleBody.num_habi ∧
    (postHabitacionStrict sampleBody
      { singleByNumRes :=
          singleQuery [sampleRoom]
            (fun x => decide (x.num_habi = sampleBody.num_habi)) }).fst =
      ⟨409, .errMsg "El número de habitación ya existe."⟩ :=
  ⟨by decide, by decide, by decide, by decide,
    (C3_conflict_atomic sampleBody
      { singleByNumRes :=
          singleQuery [sampleRoom]
            (fun x => decide (x.num_habi = sampleBody.num_habi)) }
      [sampleRoom] sampleRoom
      (by decide) (by decide) (by decide) (by decide) (by decide)
      (by decide) (by decide) (by decide) rfl).1⟩

/-- Claim C4, counterexample: not every store error yields 500 — an
error on the single-row select of GET by id yields 404 in both
variants, with the store's message discarded. -/
theorem C4_counterexample :
    (getHabitacionByIdStrict "1"
      { singleByIdRes := Except.error "network down" }).fst =
      ⟨404, .errMsg "Habitación no encontrada"⟩ ∧
    (getHabitacionByIdStrict "1"
      { singleByIdRes := Except.error "network down" }).fst.status ≠ 500 ∧
    (getHabitacionByIdLenient
      { singleByIdRes := Except.error "network down" }).fst.status ≠ 500 := by
  refine ⟨rfl, ?_, ?_⟩ <;> decide

/-- Claim C4 (amended): the store's error message is passed through
verbatim with status 500 for the final store call of each operation —
the list select, the insert, the update and the delete, in both
variants; errors on the single-row select of GET by id yield 404
instead, and errors on the pre-checks are discarded. -/
theorem C4_amended (m : String) :
    (∀ st : StoreOracle, st.selectAllRes = Except.error m →
      (getHabitacionesStrict st).fst = ⟨500, .errMsg m⟩) ∧
    (∀ st : StoreOracle, st.selectAllRes = Except.error m →
      (getHabitacionesLenient st).fst = ⟨500, .errMsg m⟩) ∧
    (∀ body : ReqBody, ∀ st : StoreOracle, ∀ e : String,
      truthy body.num_habi = true → truthy body.tipo = true →
      truthy body.capacidad = true → truthy body.precio = true →
      body.estado ≠ JSValue.undef →
      st.singleByNumRes = Except.error e → st.insertRes = Except.error m →
      (postHabitacionStrict body st).fst = ⟨500, .errMsg m⟩) ∧
    (∀ st : StoreOracle, st.insertRes = Except.error m →
      (postHabitacionLenient st).fst = ⟨500, .errMsg m⟩) ∧
    (∀ idParam : String, ∀ n : Int, ∀ body : ReqBody, ∀ st : StoreOracle, ∀ r : Room,
      jsParseInt idParam = some n → 0 < n →
      ¬ (jsIsNaN body.num_habi = true ∨ jsLeZero body.num_habi = true) →
      ¬ (truthy body.tipo = true ∧ jsTypeof body.tipo ≠ "string") →
      ¬ (truthy body.capacidad = true ∧
          (jsIsNaN body.capacidad = true ∨ jsLeZero body.capacidad = true)) →
      ¬ (truthy body.precio = true ∧
          (jsIsNaN body.precio = true ∨ jsLeZero body.precio = true)) →
      ¬ (body.estado ≠ JSValue.undef ∧ jsTypeof body.estado ≠ "boolean") →
      st.singleByIdRes = Except.ok r → st.updateRes = Except.error m →
      (patchHabitacionStrict idParam body st).fst = ⟨500, .errMsg m⟩) ∧
    (∀ st : StoreOracle, st.updateRes = Except.error m →
      (putHabitacionLenient st).fst = ⟨500, .errMsg m⟩) ∧
    (∀ idParam : String, ∀ n : Int, ∀ st : StoreOracle, ∀ r : Room,
      jsParseInt idParam = some n → 0 < n →
      st.singleByIdRes = Except.ok r → st.deleteRes = some m →
      (deleteHabitacionStrict idParam st).fst = ⟨500, .errMsg m⟩) ∧
    (∀ st : StoreOracle, st.deleteRes = some m →
      (deleteHabitacionLenient st).fst = ⟨500, .errMsg m⟩) := by
  refine ⟨?_, ?_, ?_, ?_, ?_, ?_, ?_, ?_⟩
  · intro st h
    obtain ⟨sa, sid, snum, ins, upd, del⟩ := st
    simp only at h
    subst h
    simp [getHabitacionesStrict]
  · intro st h
    obtain ⟨sa, sid, snum, ins, upd, del⟩ := st
    simp only at h
    subst h
    simp [getHabitacionesLenient]
  · intro body st e h1 h2 h3 h4 h5 hpre hins
    obtain ⟨sa, sid, snum, ins, upd, del⟩ := st
    simp only at hpre hins
    subst hpre
    subst hins
    simp [postHabitacionStrict, h1, h2, h3, h4, h5]
  · intro st h
    obtain ⟨sa, sid, snum, ins, upd, del⟩ := st
    simp only at h
    subst h
    simp [postHabitacionLenient]
  · intro idParam n body st r hp hpos h6 h7 h8 h9 h10 hid hupd
    obtain ⟨sa, sid, snum, ins, upd, del⟩ := st
    simp only at hid hupd
    subst hid
    subst hupd
    simp [patchHabitacionStrict, hp, h6, h7, h8, h9, h10,
      show ¬ n ≤ 0 by omega]
  · intro st h
    obtain ⟨sa, sid, snum, ins, upd, del⟩ := st
    simp only at h
    subst h
    simp [putHabitacionLenient]
  · intro idParam n st r hp hpos hid hdel
    obtain ⟨sa, sid, snum, ins, upd, del⟩ := st
    simp only at hid hdel
    subst hid
    subst hdel
    simp [deleteHabitacionStrict, hp, show ¬ n ≤ 0 by omega]
  · intro st h
    obtain ⟨sa, sid, snum, ins, upd, del⟩ := st
    simp only at h
    subst h
    simp [deleteHabitacionLenient]

/-- Claim C4 witness: a concrete list select failure is surfaced as 500
with the same message. -/
theorem C4_witness :
    (StoreOracle.selectAllRes { selectAllRes := Except.error "boom" } =
      Except.error "boom") ∧
    (getHabitacionesStrict { selectAllRes := Except.error "boom" }).fst =
      ⟨500, .errMsg "boom"⟩ :=
  ⟨rfl, (C4_amended "boom").1 { selectAllRes := Except.error "boom" } rfl⟩

/-- Claim C5: for a valid positive id, GET by id answers 200 with the
row exactly when the single-row query succeeds; an error from the query
— which covers both the no-matching-row case and an upstream failure —
answers 404 with the same body in both variants. -/
theorem C5_get_by_id_conflation (idParam : String) (n : Int)
    (hp : jsParseInt idParam = some n) (hpos : 0 < n) :
    (∀ st : StoreOracle, ∀ r : Room, st.singleByIdRes = Except.ok r →
      (getHabitacionByIdStrict idParam st).fst = ⟨200, .room r⟩ ∧
      (getHabitacionByIdLenient st).fst = ⟨200, .room r⟩) ∧
    (∀ st : StoreOracle, ∀ e : String, st.singleByIdRes = Except.error e →
      (getHabitacionByIdStrict idParam st).fst =
        ⟨404, .errMsg "Habitación no encontrada"⟩ ∧
      (getHabitacionByIdLenient st).fst =
        ⟨404, .errMsg "Habitación no encontrada"⟩) ∧
    (∀ rows : List Room, (∀ r ∈ rows, r.habitacion_id ≠ n) →
      ∀ st : StoreOracle,
        st.singleByIdRes =
          singleQuery rows (fun x => decide (x.habitacion_id = n)) →
        (getHabitacionByIdStrict idParam st).fst =
          ⟨404, .errMsg "Habitación no encontrada"⟩) := by
  refine ⟨?_, ?_, ?_⟩
  · intro st r h
    obtain ⟨sa, sid, snum, ins, upd, del⟩ := st
    simp only at h
    subst h
    constructor <;>
      simp [getHabitacionByIdStrict, getHabitacionByIdLenient, hp,
        show ¬ n ≤ 0 by omega]
  · intro st e h
    obtain ⟨sa, sid, snum, ins, upd, del⟩ := st
    simp only at h
    subst h
    constructor <;>
      simp [getHabitacionByIdStrict, getHabitacionByIdLenient, hp,
        show ¬ n ≤ 0 by omega]
  · intro rows hno st h
    have hnil : rows.filter (fun x => decide (x.habitacion_id = n)) = [] := by
      refine List.filter_eq_nil_iff.mpr fun b hb => ?_
      simp only [decide_eq_true_eq]
      exact hno b hb
    rw [singleQuery, hnil] at h
    obtain ⟨sa, sid, snum, ins, upd, del⟩ := st
    simp only at h
    subst h
    simp [getHabitacionByIdStrict, hp, show ¬ n ≤ 0 by omega]

/-- Claim C5 witness: concrete instances of the success and the
empty-collection cases at id 7. -/
theorem C5_witness :
    jsParseInt "7" = some 7 ∧ (0 : Int) < 7 ∧
    (getHabitacionByIdStrict "7"
      { singleByIdRes := Except.ok sampleRoom }).fst = ⟨200, .room sampleRoom⟩ :=
  ⟨by decide, by decide,
    ((C5_get_by_id_conflation "7" 7 (by decide) (by decide)).1
      { singleByIdRes := Except.ok sampleRoom } sampleRoom rfl).1⟩

/-- Claim C6: for an id path parameter that is non-numeric, zero or
negative, the strict GET-by-id, PATCH and DELETE handlers answer 400
with the invalid-id body and issue no store call at all. -/
theorem C6_invalid_id_rejected (idParam : String)
    (hbad : jsParseInt idParam = none ∨
      ∃ n : Int, jsParseInt idParam = some n ∧ n ≤ 0) :
    (∀ st : StoreOracle,
      getHabitacionByIdStrict idParam st =
        (⟨400, .errMsg "ID inválido. Debe ser un número entero positivo."⟩, [])) ∧
    (∀ body : ReqBody, ∀ st : StoreOracle,
      patchHabitacionStrict idParam body st =
        (⟨400, .errMsg "ID inválido. Debe ser un número entero positivo."⟩, [])) ∧
    (∀ st : StoreOracle,
      deleteHabitacionStrict idParam st =
        (⟨400, .errMsg "ID inválido. Debe ser un número entero positivo."⟩, [])) := by
  rcases hbad with h | ⟨n, h, hle⟩
  · refine ⟨fun st => ?_, fun body st => ?_, fun st => ?_⟩ <;>
      simp [getHabitacionByIdStrict, patchHabitacionStrict,
        deleteHabitacionStrict, h]
  · refine ⟨fun st => ?_, fun body st => ?_, fun st => ?_⟩ <;>
      simp [getHabitacionByIdStrict, patchHabitacionStrict,
        deleteHabitacionStrict, h, hle]

/-- Claim C6 witness: the id parameter `"0"` is rejected by all three
strict handlers without a store call. -/
theorem C6_witness :
    (jsParseInt "0" = none ∨ ∃ n : Int, jsParseInt "0" = some n ∧ n ≤ 0) ∧
    getHabitacionByIdStrict "0" ({} : StoreOracle) =
      (⟨400, .errMsg "ID inválido. Debe ser un número entero positivo."⟩, []) :=
  ⟨Or.inr ⟨0, by decide, by decide⟩,
    (C6_invalid_id_rejected "0" (Or.inr ⟨0, by decide, by decide⟩)).1
      ({} : StoreOracle)⟩

/-- Claim C7: on a successful list query, the strict variant answers 404
with `No hay habitaciones registradas` exactly when the returned
collection is null or empty and 200 with the full collection otherwise,
while the lenient variant always answers 200 with whatever the store
returned, the empty collection included. -/
theorem C7_list_variants :
    (∀ st : StoreOracle, st.selectAllRes = Except.ok none →
      (getHabitacionesStrict st).fst =
        ⟨404, .errMsg "No hay habitaciones registradas"⟩) ∧
    (∀ st : StoreOracle, st.selectAllRes = Except.ok (some []) →
      (getHabitacionesStrict st).fst =
        ⟨404, .errMsg "No hay habitaciones registradas"⟩) ∧
    (∀ st : StoreOracle, ∀ l : List Room,
      st.selectAllRes = Except.ok (some l) → l ≠ [] →
      (getHabitacionesStrict st).fst = ⟨200, .rooms l⟩) ∧
    (∀ st : StoreOracle, ∀ l : List Room,
      st.selectAllRes = Except.ok (some l) →
      (getHabitacionesLenient st).fst = ⟨200, .rooms l⟩) := by
  refine ⟨?_, ?_, ?_, ?_⟩
  · intro st h
    obtain ⟨sa, sid, snum, ins, upd, del⟩ := st
    simp only at h
    subst h
    simp [getHabitacionesStrict]
  · intro st h
    obtain ⟨sa, sid, snum, ins, upd, del⟩ := st
    simp only at h
    subst h
    simp [getHabitacionesStrict]
  · intro st l h hne
    obtain ⟨sa, sid, snum, ins, upd, del⟩ := st
    simp only at h
    subst h
    simp [getHabitacionesStrict, List.length_eq_zero, hne]
  · intro st l h
    obtain ⟨sa, sid, snum, ins, upd, del⟩ := st
    simp only at h
    subst h
    simp [getHabitacionesLenient]

/-- Claim C7 witness: a successful query returning one row gives 200 in
the strict variant. -/
theorem C7_witness :
    (StoreOracle.selectAllRes
        { selectAllRes := Except.ok (some [sampleRoom]) } =
      Except.ok (some [sampleRoom])) ∧
    (getHabitacionesStrict { selectAllRes := Except.ok (some [sampleRoom]) }).fst =
      ⟨200, .rooms [sampleRoom]⟩ :=
  ⟨rfl,
    (C7_list_variants).2.2.1 { selectAllRes := Except.ok (some [sampleRoom]) }
      [sampleRoom] rfl (by decide)⟩

/-- Claim C8: the strict DELETE answers 400 for a non-positive-integer
id, 404 when no row with that id exists, and only otherwise issues the
store delete; in both variants a successful store delete answers 204
with an empty body and a failed one answers 500 with the store's
message; the lenient variant issues the delete directly, with neither
the id validation nor the existence pre-check. -/
theorem C8_delete_behavior :
    (∀ idParam : String,
      (jsParseInt idParam = none ∨
        ∃ n : Int, jsParseInt idParam = some n ∧ n ≤ 0) →
      ∀ st : StoreOracle,
        deleteHabitacionStrict idParam st =
          (⟨400, .errMsg "ID inválido. Debe ser un número entero positivo."⟩, [])) ∧
    (∀ idParam : String, ∀ n : Int, jsParseInt idParam = some n → 0 < n →
      ∀ rows : List Room, (∀ r ∈ rows, r.habitacion_id ≠ n) →
      ∀ st : StoreOracle,
        st.singleByIdRes =
          singleQuery rows (fun x => decide (x.habitacion_id = n)) →
        deleteHabitacionStrict idParam st =
          (⟨404, .errMsg "Habitación no encontrada"⟩, [.selectOneById]) ∧
        CallKind.deleteRow ∉ (deleteHabitacionStrict idParam st).snd) ∧
    (∀ idParam : String, ∀ n : Int, ∀ st : StoreOracle, ∀ r : Room,
      jsParseInt idParam = some n → 0 < n →
      st.singleByIdRes = Except.ok r → st.deleteRes = none →
      deleteHabitacionStrict idParam st =
        (⟨204, .empty⟩, [.selectOneById, .deleteRow])) ∧
    (∀ idParam : String, ∀ n : Int, ∀ st : StoreOracle, ∀ r : Room, ∀ m : String,
      jsParseInt idParam = some n → 0 < n →
      st.singleByIdRes = Except.ok r → st.deleteRes = some m →
      deleteHabitacionStrict idParam st =
        (⟨500, .errMsg m⟩, [.selectOneById, .deleteRow])) ∧
    (∀ st : StoreOracle, st.deleteRes = none →
      deleteHabitacionLenient st = (⟨204, .empty⟩, [.deleteRow])) ∧
    (∀ st : StoreOracle, ∀ m : String, st.deleteRes = some m →
      deleteHabitacionLenient st = (⟨500, .errMsg m⟩, [.deleteRow])) ∧
    (∀ st : StoreOracle,
      CallKind.selectOneById ∉ (deleteHabitacionLenient st).snd) := by
  refine ⟨?_, ?_, ?_, ?_, ?_, ?_, ?_⟩
  · intro idParam hbad st
    rcases hbad with h | ⟨n, h, hle⟩
    · simp [deleteHabitacionStrict, h]
    · simp [deleteHabitacionStrict, h, hle]
  · intro idParam n hp hpos rows hno st h
    have hnil : rows.filter (fun x => decide (x.habitacion_id = n)) = [] := by
      refine List.filter_eq_nil_iff.mpr fun b hb => ?_
      simp only [decide_eq_true_eq]
      exact hno b hb
    rw [singleQuery, hnil] at h
    obtain ⟨sa, sid, snum, ins, upd, del⟩ := st
    simp only at h
    subst h
    constructor <;>
      simp [deleteHabitacionStrict, hp, show ¬ n ≤ 0 by omega]
  · intro idParam n st r hp hpos hid hdel
    obtain ⟨sa, sid, snum, ins, upd, del⟩ := st
    simp only at hid hdel
    subst hid
    subst hdel
    simp [deleteHabitacionStrict, hp, show ¬ n ≤ 0 by omega]
  · intro idParam n st r m hp hpos hid hdel
    obtain ⟨sa, sid, snum, ins, upd, del⟩ := st
    simp only at hid hdel
    subst hid
    subst hdel
    simp [deleteHabitacionStrict, hp, show ¬ n ≤ 0 by omega]
  · intro st h
    obtain ⟨sa, sid, snum, ins, upd, del⟩ := st
    simp only at h
    subst h
    simp [deleteHabitacionLenient]
  · intro st m h
    obtain ⟨sa, sid, snum, ins, upd, del⟩ := st
    simp only at h
    subst h
    simp [deleteHabitacionLenient]
  · intro st
    obtain ⟨sa, sid, snum, ins, upd, del⟩ := st
    cases del <;> simp [deleteHabitacionLenient]

/-- Claim C8 witness: a valid id whose row exists is deleted with 204 in
the strict variant. -/
theorem C8_witness :
    jsParseInt "1" = some 1 ∧ (0 : Int) < 1 ∧
    deleteHabitacionStrict "1"
      { singleByIdRes := Except.ok sampleRoom, deleteRes := none } =
      (⟨204, .empty⟩, [.selectOneById, .deleteRow]) :=
  ⟨by decide, by decide,
    C8_delete_behavior.2.2.1 "1" 1
      { singleByIdRes := Except.ok sampleRoom, deleteRes := none }
      sampleRoom (by decide) (by decide) rfl rfl⟩

/-- Claim C10: in the strict PATCH and DELETE handlers the existence
pre-check destructures only `data`, so a store error there is
indistinguishable from an absent row: for a valid id and a body passing
the field checks, an erroring pre-check answers 404 with `Habitación no
encontrada` and the update / delete store call is never issued. -/
theorem C10_precheck_error_discarded (idParam : String) (n : Int)
    (body : ReqBody) (st : StoreOracle) (m : String)
    (hp : jsParseInt idParam = some n) (hpos : 0 < n)
    (h6 : ¬ (jsIsNaN body.num_habi = true ∨ jsLeZero body.num_habi = true))
    (h7 : ¬ (truthy body.tipo = true ∧ jsTypeof body.tipo ≠ "string"))
    (h8 : ¬ (truthy body.capacidad = true ∧
        (jsIsNaN body.capacidad = true ∨ jsLeZero body.capacidad = true)))
    (h9 : ¬ (truthy body.precio = true ∧
        (jsIsNaN body.precio = true ∨ jsLeZero body.precio = true)))
    (h10 : ¬ (body.estado ≠ JSValue.undef ∧ jsTypeof body.estado ≠ "boolean"))
    (herr : st.singleByIdRes = Except.error m) :
    patchHabitacionStrict idParam body st =
      (⟨404, .errMsg "Habitación no encontrada"⟩, [.selectOneById]) ∧
    CallKind.updateRow ∉ (patchHabitacionStrict idParam body st).snd ∧
    deleteHabitacionStrict idParam st =
      (⟨404, .errMsg "Habitación no encontrada"⟩, [.selectOneById]) ∧
    CallKind.deleteRow ∉ (deleteHabitacionStrict idParam st).snd := by
  obtain ⟨sa, sid, snum, ins, upd, del⟩ := st
  simp only at herr
  subst herr
  refine ⟨?_, ?_, ?_, ?_⟩ <;>
    simp [patchHabitacionStrict, deleteHabitacionStrict, hp,
      h6, h7, h8, h9, h10, show ¬ n ≤ 0 by omega]

/-- Claim C10 witness: a failing pre-check select on id 1 yields 404
from the strict PATCH even though the store reported an error. -/
theorem C10_witness :
    jsParseInt "1" = some 1 ∧
    (StoreOracle.singleByIdRes { singleByIdRes := Except.error "db unreachable" } =
      Except.error "db unreachable") ∧
    patchHabitacionStrict "1" { num_habi := JSValue.num 5 }
      { singleByIdRes := Except.error "db unreachable" } =
      (⟨404, .errMsg "Habitación no encontrada"⟩, [.selectOneById]) :=
  ⟨by decide, rfl,
    (C10_precheck_error_discarded "1" 1 { num_habi := JSValue.num 5 }
      { singleByIdRes := Except.error "db unreachable" } "db unreachable"
      (by decide) (by decide) (by decide) (by decide) (by decide) (by decide)
      (by decide) rfl).1⟩

/-- Claim C9 witness: a present `num_habi` of `0` is rejected as a
missing field. -/
theorem C9_witness :
    (ReqBody.num_habi
        { num_habi := JSValue.num 0, tipo := .str "doble",
          capacidad := .num 2, precio := .num 500, estado := .bool true } =
      JSValue.num 0) ∧
    (postHabitacionStrict
        { num_habi := JSValue.num 0, tipo := .str "doble",
          capacidad := .num 2, precio := .num 500, estado := .bool true }
        ({} : StoreOracle)).fst =
      ⟨400, .errMsg "Todos los campos son obligatorios."⟩ :=
  ⟨rfl,
    C9_falsy_presence_check.1
      { num_habi := JSValue.num 0, tipo := .str "doble",
        capacidad := .num 2, precio := .num 500, estado := .bool true }
      ({} : StoreOracle) rfl⟩
